import Mathlib

/-!
Verification of the vibration-signal feature-extraction and prediction
pipeline of `src/modules/model_predictor.py`.

Modelling conventions:
* Python floats are modelled as real numbers; a value that the code sets to
  `np.nan` (all the guarded divisions) is modelled as `none : Option ℝ`,
  every ordinary float as `some x`.
* A numpy 1-D array is a `List ℝ`; a 2-D array is a `List (List ℝ)` whose
  entries are the columns (channel signals), matching `a[:, i]`.
* The pseudo-random source `np.random.normal(mu, sigma, n)` is modelled by an
  explicit oracle `g : Rng` applied as `g mu sigma n`; the code under
  verification is parametrised by the oracle.
* Python dicts keyed by strings are association lists in insertion order;
  the number of columns of a one-row `pd.DataFrame` built from such a dict
  is the number of distinct keys.
* `np.max` and `np.min` raise on an empty array and `scipy.fft.fft` raises
  on an empty input; the theorems below only quantify over the nonempty
  signals, where the total functions given here agree with the code.
-/

noncomputable section

namespace ModelPredictor

/-- Values of the feature dictionaries: `none` models `np.nan`. -/
def FVal : Type := Option ℝ

/-- Arithmetic mean, `np.mean` / `ndarray.mean()` (line 56). -/
def mean (s : List ℝ) : ℝ := s.sum / s.length

/-- Population standard deviation, `np.std` / `ndarray.std()` (line 57). -/
def std (s : List ℝ) : ℝ := Real.sqrt (mean (s.map (fun x => (x - mean s) ^ 2)))

/-- Root mean square, `np.sqrt(np.mean(signal ** 2))` (line 58). -/
def rms (s : List ℝ) : ℝ := Real.sqrt (mean (s.map (fun x => x ^ 2)))

/-- Model of `np.max(signal)` (line 59); numpy raises on an empty array, claims only
use nonempty signals where this fold agrees with numpy. -/
def listMax (s : List ℝ) : ℝ := s.foldl max (s.headD 0)

/-- Model of `np.min(signal)` (line 60). -/
def listMin (s : List ℝ) : ℝ := s.foldl min (s.headD 0)

/-- Model of `max_val - min_val` (line 61). -/
def peak_to_peak (s : List ℝ) : ℝ := listMax s - listMin s

/-- Model of `np.mean(np.abs(signal))` (line 62). -/
def mean_abs (s : List ℝ) : ℝ := mean (s.map (fun x => |x|))

/-- Model of `max_val / rms_val if rms_val > 0 else np.nan` (line 72). -/
def crest_factor (s : List ℝ) : Option ℝ :=
  if 0 < rms s then some (listMax s / rms s) else none

/-- Model of `rms_val / mean_abs if mean_abs > 0 else np.nan` (line 73). -/
def shape_factor (s : List ℝ) : Option ℝ :=
  if 0 < mean_abs s then some (rms s / mean_abs s) else none

/-- Model of `max_val / mean_abs if mean_abs > 0 else np.nan` (line 74). -/
def impulse_factor (s : List ℝ) : Option ℝ :=
  if 0 < mean_abs s then some (listMax s / mean_abs s) else none

/-- Central moment of order `k`, used by `scipy.stats.skew` and
`scipy.stats.kurtosis`. -/
def centralMoment (s : List ℝ) (k : ℕ) : ℝ := mean (s.map (fun x => (x - mean s) ^ k))

/-- Model of `scipy.stats.skew(signal)` (line 75): `m3 / m2 ** 1.5`, which is `nan`
when the variance `m2` is zero. -/
def skewness (s : List ℝ) : Option ℝ :=
  if centralMoment s 2 = 0 then none
  else some (centralMoment s 3 / Real.sqrt (centralMoment s 2 ^ 3))

/-- Model of `scipy.stats.kurtosis(signal)` (line 76), Fisher convention
`m4 / m2 ** 2 - 3`, `nan` when the variance is zero. -/
def kurtosis (s : List ℝ) : Option ℝ :=
  if centralMoment s 2 = 0 then none
  else some (centralMoment s 4 / centralMoment s 2 ^ 2 - 3)

/-- Model of `np.sum(signal ** 2)` (line 77). -/
def energy (s : List ℝ) : ℝ := (s.map (fun x => x ^ 2)).sum

/-- Model of `np.sign` applied elementwise. -/
def sgn (x : ℝ) : ℝ := if 0 < x then 1 else if x < 0 then -1 else 0

/-- Model of `np.diff(np.sign(signal))`: consecutive differences of the sign vector. -/
def signDiffs (s : List ℝ) : List ℝ :=
  List.zipWith (fun a b => b - a) (s.map sgn) (s.map sgn).tail

/-- Model of `np.sum(np.diff(np.sign(signal)) != 0) / len(signal)` (line 78). -/
def zero_crossing_rate (s : List ℝ) : ℝ :=
  ((signDiffs s).countP (fun d => if d = 0 then false else true) : ℝ) / s.length

/-- The time-domain feature dictionary of `compute_basic_time_features`
(lines 54-81), in insertion order. -/
def compute_basic_time_features (s : List ℝ) : List (String × Option ℝ) :=
  [("mean", some (mean s)),
   ("std", some (std s)),
   ("rms", some (rms s)),
   ("max", some (listMax s)),
   ("min", some (listMin s)),
   ("peak_to_peak", some (peak_to_peak s)),
   ("mean_abs", some (mean_abs s)),
   ("crest_factor", crest_factor s),
   ("shape_factor", shape_factor s),
   ("impulse_factor", impulse_factor s),
   ("skewness", skewness s),
   ("kurtosis", kurtosis s),
   ("energy", some (energy s)),
   ("zero_crossing_rate", some (zero_crossing_rate s))]

/-- One coefficient of the discrete Fourier transform `scipy.fft.fft(signal)`
(line 86): `X_j = sum_k x_k * exp(-2*pi*I*j*k/N)`. -/
def dft (s : List ℝ) (j : ℕ) : ℂ :=
  ((List.range s.length).map
    (fun k => (s.getD k 0 : ℂ) * Complex.exp (-(2 * Real.pi * Complex.I * j * k) / s.length))).sum

/-- Model of `np.abs(yf[:N // 2]) * 2 / N` (lines 88-89): the first half of the
magnitude spectrum, normalised by `2/N`. -/
def amplitudes (s : List ℝ) : List ℝ :=
  (List.range (s.length / 2)).map (fun j => Complex.abs (dft s j) * 2 / s.length)

/-- Model of `scipy.fft.fftfreq(N, 1 / sampling_rate)[:N // 2]` (line 87): the bin
frequencies `j * sampling_rate / N` for `j < N // 2`. -/
def xfreqs (s : List ℝ) (sr : ℝ) : List ℝ :=
  (List.range (s.length / 2)).map (fun j => j * sr / s.length)

/-- Model of `np.argmax` (line 101): index of the first occurrence of the maximum. -/
def argmaxIdx (l : List ℝ) : ℕ := l.findIdx (fun x => if listMax l ≤ x then true else false)

/-- The all-`nan` frequency feature dictionary returned for a degenerate
spectrum (lines 91-99), in insertion order. -/
def freqNaNRow : List (String × Option ℝ) :=
  [("dominant_freq", none),
   ("dominant_amp", none),
   ("spectral_energy", none),
   ("spectral_centroid", none),
   ("spectral_bandwidth", none),
   ("spectral_flatness", none)]

/-- The frequency-domain feature dictionary of `compute_frequency_features`
(lines 83-122). -/
def compute_frequency_features (s : List ℝ) (sr : ℝ) : List (String × Option ℝ) :=
  let amps := amplitudes s
  if amps.length = 0 ∨ amps.sum = 0 then freqNaNRow
  else
    let xf := xfreqs s sr
    let di := argmaxIdx amps
    let den := amps.sum
    let centroid := (List.zipWith (fun x a => x * a) xf amps).sum / den
    let bandwidth := Real.sqrt ((List.zipWith (fun x a => (x - centroid) ^ 2 * a) xf amps).sum / den)
    let nonzero := amps.filter (fun a => if 0 < a then true else false)
    let gm := if nonzero.length = 0 then 0 else Real.exp (mean (nonzero.map Real.log))
    let am := if nonzero.length = 0 then 0 else mean nonzero
    let flatness := if 0 < am then some (gm / am) else none
    [("dominant_freq", some (xf.getD di 0)),
     ("dominant_amp", some (amps.getD di 0)),
     ("spectral_energy", some ((amps.map (fun a => a ^ 2)).sum)),
     ("spectral_centroid", some centroid),
     ("spectral_bandwidth", some bandwidth),
     ("spectral_flatness", flatness)]

/-- A pandas `DataFrame` as produced by this module: either the empty frame
`pd.DataFrame()` or a one-row frame `pd.DataFrame([features_dict])`. -/
inductive DataFrame
  | empty0
  | oneRow (row : List (String × Option ℝ))

/-- Number of rows of the frame. -/
def DataFrame.nrows : DataFrame → ℕ
  | .empty0 => 0
  | .oneRow _ => 1

/-- Number of columns: the number of distinct keys of the dict the one-row
frame was built from. -/
def DataFrame.ncols : DataFrame → ℕ
  | .empty0 => 0
  | .oneRow r => ((r.map Prod.fst).dedup).length

/-- Pandas `DataFrame.empty`: true iff either axis has length zero. -/
def DataFrame.isEmpty (d : DataFrame) : Bool := d.nrows == 0 || d.ncols == 0

/-- ASCII lower-casing of a string, modelling Python `str.lower()` on the
ASCII identifiers used for model names. -/
def lowerStr (s : String) : String := String.mk (s.data.map Char.toLower)

/-- Containment of one character list in another, the list form of Python's
substring test `pat in s`. -/
def subListOf : List Char → List Char → Bool
  | p, [] => p.isEmpty
  | p, c :: rest => p.isPrefixOf (c :: rest) || subListOf p rest

/-- Python `pat in s` for strings. -/
def substrIn (pat s : String) : Bool := subListOf pat.data s.data

/-- Helper for `pySplitUnderscore`: accumulates the current token reversed. -/
def splitAux : List Char → List Char → List String
  | [], acc => [String.mk acc.reverse]
  | c :: rest, acc =>
      if c = '_' then String.mk acc.reverse :: splitAux rest []
      else splitAux rest (c :: acc)

/-- Python `s.split("_")` (line 309), empty tokens included. -/
def pySplitUnderscore (s : String) : List String := splitAux s.data []

/-- Python `part.isdigit()` (line 311) on ASCII: nonempty and all decimal
digits. -/
def pyIsDigit (s : String) : Bool := !s.isEmpty && s.data.all Char.isDigit

/-- Python `int(part)` on a decimal-digit string. -/
def digitsToNat (s : String) : ℕ := s.data.foldl (fun acc c => acc * 10 + (c.toNat - 48)) 0

/-- Python `"_" in model_name` (line 308). -/
def hasUnderscore (s : String) : Bool := s.data.any (fun c => c == '_')

/-- The sampling-rate inference of `predict` (lines 306-313): default 25000;
only when the name contains an underscore, scan the tokens of the name split
on underscores and take the first purely numeric one. -/
def infer_sampling_rate (model_name : String) : ℕ :=
  if hasUnderscore model_name then
    match (pySplitUnderscore model_name).find? pyIsDigit with
    | some p => digitsToNat p
    | none => 25000
  else 25000

/-- The sampling-rate rule as the specification words it: the first purely
numeric token of the identifier split on underscores, default 25000 if there
is none (no underscore guard). Kept separate from `infer_sampling_rate` to
compare the code against the specification. -/
def spec_first_numeric_rate (model_name : String) : ℕ :=
  match (pySplitUnderscore model_name).find? pyIsDigit with
  | some p => digitsToNat p
  | none => 25000

/-- A numpy array argument that may be 1-D or 2-D; in the 2-D case the
entries are the columns. -/
inductive NDArray
  | d1 (s : List ℝ)
  | d2 (cols : List (List ℝ))

/-- Oracle for `np.random.normal(mu, sigma, n)`. -/
def Rng : Type := ℝ → ℝ → ℕ → List ℝ

/-- Model of `samples + np.random.normal(0, factor * np.std(samples), len(samples))`. -/
def addNoise (g : Rng) (s : List ℝ) (factor : ℝ) : List ℝ :=
  List.zipWith (fun a b => a + b) s (g 0 (factor * std s) s.length)

/-- Decorates each feature name with a domain prefix and an axis or channel
suffix, as in `f"time_{feat_name}_{col}"`. -/
def tagFeatures (pre suf : String) (feats : List (String × Option ℝ)) : List (String × Option ℝ) :=
  feats.map (fun fv => (pre ++ fv.1 ++ suf, fv.2))

/-- All 20 features of one signal: the 14 time-domain features followed by
the 6 frequency-domain ones, each tagged with the given suffix. -/
def channelFeatures (signal : List ℝ) (sr : ℝ) (suf : String) : List (String × Option ℝ) :=
  tagFeatures "time_" suf (compute_basic_time_features signal) ++
  tagFeatures "freq_" suf (compute_frequency_features signal sr)

/-- The fixed channel-name list of
`extract_features_from_multi_channel_data` (lines 131-134). -/
def column_names : List String :=
  ["tachometer", "underhang-axial", "underhang-radial", "underhang-tangential",
   "overhang-axial", "overhang-radial", "overhang-tangential"]

/-- Model of `extract_features_from_multi_channel_data` (lines 124-161): truncate the
name list to the number of supplied columns, keep the first `len(names)`
columns, and emit a one-row frame of per-channel time and frequency
features. -/
def extract_features_from_multi_channel_data (cols : List (List ℝ)) (sr : ℝ) : DataFrame :=
  let names := column_names.take cols.length
  let used := cols.take names.length
  DataFrame.oneRow ((names.zip used).flatMap (fun nc => channelFeatures nc.2 sr ("_" ++ nc.1)))

/-- The per-axis signal of `extract_3axis_features` (lines 194-208): for a
1-D input the axial axis is the raw signal and the radial and tangential
axes add noise with factors 0.1 and 0.15; for a 2-D input column
`min(i + 1, ncols - 1)` is used. -/
def axisSignal (g : Rng) (d : NDArray) (i : ℕ) (axis : String) : List ℝ :=
  match d with
  | .d1 s =>
      if axis = "axial" then s
      else if axis = "radial" then addNoise g s 0.1
      else addNoise g s 0.15
  | .d2 cols => cols.getD (min (i + 1) (cols.length - 1)) []

/-- Model of `extract_3axis_features` (lines 184-221): 20 features for each of the
axial, radial and tangential axes, keys suffixed with the axis name. -/
def extract_3axis_features (g : Rng) (d : NDArray) (sr : ℝ) : DataFrame :=
  DataFrame.oneRow
    (channelFeatures (axisSignal g d 0 "axial") sr "_axial" ++
     channelFeatures (axisSignal g d 1 "radial") sr "_radial" ++
     channelFeatures (axisSignal g d 2 "tangential") sr "_tangential")

/-- The fixed column index of `extract_single_axis_features`
(lines 233-238): axial 1, radial 2, otherwise 3. -/
def singleAxisIdx (axis_type : String) : ℕ :=
  if axis_type = "axial" then 1 else if axis_type = "radial" then 2 else 3

/-- Model of `extract_single_axis_features` (lines 223-255): one signal, 20 features,
keys without an axis suffix. -/
def extract_single_axis_features (d : NDArray) (sr : ℝ) (axis_type : String) : DataFrame :=
  let signal := match d with
    | .d1 s => s
    | .d2 cols => cols.getD (min (singleAxisIdx axis_type) (cols.length - 1)) []
  DataFrame.oneRow (channelFeatures signal sr "")

/-- Model of `extract_features_by_model_type` (lines 163-182): dispatch on
case-insensitive substring matches against the model name with precedence
3axis, axial, radial, tangential, full. On a 1-D input the full branch
raises `IndexError` in numpy (reading `shape[1]`); its only caller wraps the
call in a handler that turns the exception into the empty frame, which is
the value used here. -/
def extract_features_by_model_type (g : Rng) (d : NDArray) (model_name : String) (sr : ℝ) :
    DataFrame :=
  if substrIn "3axis" (lowerStr model_name) then extract_3axis_features g d sr
  else if substrIn "axial" (lowerStr model_name) then extract_single_axis_features d sr "axial"
  else if substrIn "radial" (lowerStr model_name) then extract_single_axis_features d sr "radial"
  else if substrIn "tangential" (lowerStr model_name) then
    extract_single_axis_features d sr "tangential"
  else
    match d with
    | .d1 _ => DataFrame.empty0
    | .d2 cols => extract_features_from_multi_channel_data cols sr

/-- The input record of `preprocess_data`: either it lacks the "samples" key,
or carries a 1-D sample list, or a 2-D channel matrix. -/
inductive InputData
  | noSamples
  | oneD (s : List ℝ)
  | twoD (cols : List (List ℝ))

/-- The synthetic 7-channel matrix built by `preprocess_data` for 1-D input
(lines 265-278): column 0 is the samples scaled by 0.1; column `i` for
`i = 1..6` is the samples plus noise drawn from
`normal(0, (0.1 + i * 0.05) * std(samples), len(samples))`. -/
def assemble_channels (g : Rng) (s : List ℝ) : List (List ℝ) :=
  (List.range 7).map (fun i =>
    if i = 0 then s.map (fun x => x * 0.1)
    else List.zipWith (fun a b => a + b) s (g 0 ((0.1 + (i : ℝ) * 0.05) * std s) s.length))

/-- Model of `preprocess_data` (lines 258-290): without the "samples" key the empty
frame is returned; 1-D samples are expanded to the synthetic 7-channel
matrix; a 2-D matrix passes through unchanged; then the model-specific
extraction runs. -/
def preprocess_data (g : Rng) (data : InputData) (model_name : String) (sr : ℝ) : DataFrame :=
  match data with
  | .noSamples => DataFrame.empty0
  | .oneD s => extract_features_by_model_type g (.d2 (assemble_channels g s)) model_name sr
  | .twoD cols => extract_features_by_model_type g (.d2 cols) model_name sr

/-- The class-code-to-name mapping `CLASS_NAMES` (lines 16-24). -/
def CLASS_NAMES : List (ℤ × String) :=
  [(0, "normal"), (1, "horizontal-misalignment"), (2, "vertical-misalignment"),
   (3, "imbalance"), (4, "ball_fault"), (5, "cage_fault"), (6, "outer_race")]

/-- Model of `CLASS_NAMES.get(code, f"clase_{code}")` (lines 332, 343, 347). -/
def className (n : ℤ) : String :=
  match CLASS_NAMES.lookup n with
  | some s => s
  | none => "clase_" ++ toString n

/-- A loaded classifier artifact: a prediction function, an optional
probability function (`predict_proba`) and an optional class-code list
(`classes_`). An `Except.error` models a raised exception. -/
structure Classifier where
  predictFn : DataFrame → Except String ℤ
  probaFn : Option (DataFrame → Except String (List ℝ))
  classes : Option (List ℤ)

/-- The success record returned by `predict` (lines 352-359). -/
structure PredRecord where
  prediction : String
  prediction_class : ℤ
  probabilities : Option (List (String × ℝ))
  model_used : String
  features_count : ℕ
  sampling_rate : ℕ

/-- The value of `predict`: either `{"error": msg}` or the success record. -/
inductive PredictResult
  | error (msg : String)
  | ok (r : PredRecord)

/-- The probability dictionary built in lines 335-350: `none` when the model
has no `predict_proba`; otherwise class names paired with probabilities via
`classes_` when present, else positionally. -/
def buildProbDict (model : Classifier) (probs : List ℝ) : List (String × ℝ) :=
  match model.classes with
  | some cs => (cs.zip probs).map (fun p => (className p.1, p.2))
  | none => (probs.enum).map (fun p => (className (Int.ofNat p.1), p.2))

/-- Model resolution of lines 295-301: keep the requested name when loaded,
else fall back to the first loaded model, else nothing. -/
def resolveModel (models : List (String × Classifier)) (req : String) :
    Option (String × Classifier) :=
  match models.lookup req with
  | some c => some (req, c)
  | none => models.head?

/-- The body of `predict` after model resolution (lines 303-359): infer the
sampling rate from the resolved name, preprocess, fail when the feature
frame is empty, classify, optionally estimate probabilities, and assemble
the result record; any exception from the classifier surfaces as an error
result via the surrounding handler (lines 361-363). -/
def predict_with_model (name : String) (model : Classifier) (g : Rng) (data : InputData) :
    PredictResult :=
  let sr := infer_sampling_rate name
  let fdf := preprocess_data g data name (sr : ℝ)
  if fdf.isEmpty then .error "No features extracted"
  else
    match model.predictFn fdf with
    | .error e => .error e
    | .ok cls =>
      match model.probaFn with
      | none =>
          .ok ⟨className cls, cls, none, name, fdf.ncols, sr⟩
      | some f =>
          match f fdf with
          | .error e => .error e
          | .ok probs =>
              .ok ⟨className cls, cls, some (buildProbDict model probs), name, fdf.ncols, sr⟩

/-- Model of `predict` (lines 292-363). -/
def predict (models : List (String × Classifier)) (g : Rng) (data : InputData)
    (model_name : String) : PredictResult :=
  match resolveModel models model_name with
  | none => .error "No models available"
  | some nm => predict_with_model nm.1 nm.2 g data

theorem mean_replicate (n : ℕ) (c : ℝ) (h : n ≠ 0) : mean (List.replicate n c) = c := by
  simp [mean, List.sum_replicate, nsmul_eq_mul]
  field_simp

theorem rms_replicate (n : ℕ) (c : ℝ) (h : n ≠ 0) : rms (List.replicate n c) = |c| := by
  rw [rms, List.map_replicate, mean_replicate n _ h]
  exact Real.sqrt_sq_eq_abs c

theorem foldl_max_self (c : ℝ) : ∀ m, List.foldl max c (List.replicate m c) = c := by
  intro m; induction m with
  | zero => rfl
  | succ k ih => simp [List.replicate_succ, List.foldl_cons, max_self, ih]

theorem foldl_min_self (c : ℝ) : ∀ m, List.foldl min c (List.replicate m c) = c := by
  intro m; induction m with
  | zero => rfl
  | succ k ih => simp [List.replicate_succ, List.foldl_cons, min_self, ih]

theorem listMax_replicate (n : ℕ) (c : ℝ) (h : 1 ≤ n) : listMax (List.replicate n c) = c := by
  obtain ⟨m, rfl⟩ : ∃ m, n = m + 1 := ⟨n - 1, by omega⟩
  rw [listMax, List.replicate_succ]
  simp [foldl_max_self]

theorem listMin_replicate (n : ℕ) (c : ℝ) (h : 1 ≤ n) : listMin (List.replicate n c) = c := by
  obtain ⟨m, rfl⟩ : ∃ m, n = m + 1 := ⟨n - 1, by omega⟩
  rw [listMin, List.replicate_succ]
  simp [foldl_min_self]

theorem zipWith_sub_replicate (x : ℝ) :
    ∀ p q, List.zipWith (fun a b => b - a) (List.replicate p x) (List.replicate q x) =
      List.replicate (min p q) 0 := by
  intro p
  induction p with
  | zero => intro q; simp
  | succ k ih =>
    intro q
    cases q with
    | zero => simp
    | succ m => simp [List.replicate_succ, ih, Nat.succ_min_succ, List.replicate_succ]

theorem zcr_replicate (n : ℕ) (c : ℝ) : zero_crossing_rate (List.replicate n c) = 0 := by
  rw [zero_crossing_rate, signDiffs, List.map_replicate]
  rw [List.tail_replicate, zipWith_sub_replicate]
  rw [List.countP_eq_zero.mpr]
  · simp
  · intro a ha
    rw [List.eq_of_mem_replicate ha]
    simp

/-- C1 (amended): on a nonempty constant signal of value `c`,
`compute_basic_time_features` yields RMS `|c|`, peak-to-peak `0`, crest
factor `1` when `c > 0`, `-1` when `c < 0` and NaN when `c = 0`, and
zero-crossing rate `0`. -/
theorem C1_time_features_constant (c : ℝ) (n : ℕ) (h : 1 ≤ n) :
    rms (List.replicate n c) = |c| ∧
    peak_to_peak (List.replicate n c) = 0 ∧
    (0 < c → crest_factor (List.replicate n c) = some 1) ∧
    (c < 0 → crest_factor (List.replicate n c) = some (-1)) ∧
    (c = 0 → crest_factor (List.replicate n c) = none) ∧
    zero_crossing_rate (List.replicate n c) = 0 := by
  have hn : n ≠ 0 := by omega
  have hr := rms_replicate n c hn
  refine ⟨hr, ?_, ?_, ?_, ?_, zcr_replicate n c⟩
  · rw [peak_to_peak, listMax_replicate n c h, listMin_replicate n c h, sub_self]
  · intro hc
    rw [crest_factor, if_pos (by rw [hr]; exact abs_pos.mpr (ne_of_gt hc))]
    rw [hr, listMax_replicate n c h, abs_of_pos hc, div_self (ne_of_gt hc)]
  · intro hc
    rw [crest_factor, if_pos (by rw [hr]; exact abs_pos.mpr (ne_of_lt hc))]
    rw [hr, listMax_replicate n c h, abs_of_neg hc, div_neg, div_self (ne_of_lt hc)]
  · intro hc
    rw [crest_factor, if_neg]
    rw [hr, hc, abs_zero]
    exact lt_irrefl 0

/-- C1 counterexample: the constant signal of value `-1` is nonzero, yet its
crest factor is `-1`, not `1` as the claim states. -/
theorem C1_counterexample :
    crest_factor [(-1 : ℝ)] = some (-1) ∧ some (-1 : ℝ) ≠ some 1 := by
  constructor
  · have hr : rms [(-1 : ℝ)] = 1 := by
      rw [rms]
      norm_num [mean]
    rw [crest_factor, if_pos (by rw [hr]; norm_num)]
    rw [hr]
    norm_num [listMax]
  · intro hcon
    have : (-1 : ℝ) = 1 := Option.some.inj hcon
    norm_num at this

/-- C1 witness: the amended statement at the constant signal `[2, 2, 2]`. -/
theorem C1_witness :
    rms (List.replicate 3 (2 : ℝ)) = |2| ∧
    peak_to_peak (List.replicate 3 (2 : ℝ)) = 0 ∧
    (0 < (2 : ℝ) → crest_factor (List.replicate 3 (2 : ℝ)) = some 1) ∧
    ((2 : ℝ) < 0 → crest_factor (List.replicate 3 (2 : ℝ)) = some (-1)) ∧
    ((2 : ℝ) = 0 → crest_factor (List.replicate 3 (2 : ℝ)) = none) ∧
    zero_crossing_rate (List.replicate 3 (2 : ℝ)) = 0 :=
  C1_time_features_constant 2 3 (by norm_num)

theorem amplitudes_eq_nil_of_length_one (s : List ℝ) (h : s.length = 1) :
    amplitudes s = [] := by
  simp [amplitudes, h]

theorem dft_eq_zero_of_zero (s : List ℝ) (hz : ∀ x ∈ s, x = 0) (j : ℕ) : dft s j = 0 := by
  rw [dft]
  apply List.sum_eq_zero
  intro x hx
  simp only [List.mem_map] at hx
  obtain ⟨k, hk, rfl⟩ := hx
  have hk0 : s.getD k 0 = 0 := by
    rcases lt_or_le k s.length with hlt | hle
    · rw [List.getD_eq_getElem s 0 hlt]
      exact hz _ (List.getElem_mem hlt)
    · exact List.getD_eq_default s 0 hle
  rw [hk0]
  simp

theorem amplitudes_sum_eq_zero_of_zero (s : List ℝ) (hz : ∀ x ∈ s, x = 0) :
    (amplitudes s).sum = 0 := by
  apply List.sum_eq_zero
  intro x hx
  simp only [amplitudes, List.mem_map] at hx
  obtain ⟨j, hj, rfl⟩ := hx
  rw [dft_eq_zero_of_zero s hz j]
  simp

theorem cff_degenerate (s : List ℝ) (sr : ℝ)
    (h : (amplitudes s).length = 0 ∨ (amplitudes s).sum = 0) :
    compute_frequency_features s sr = freqNaNRow := by
  simp only [compute_frequency_features]
  rw [if_pos h]

/-- C2: whenever the half magnitude spectrum is empty or sums to zero — in
particular for every nonempty all-zero signal and every length-1 signal —
`compute_frequency_features` returns NaN for all six frequency features (no
exception is modelled: the embedding is a total function returning
`freqNaNRow`). -/
theorem C2_freq_degenerate :
    (∀ (s : List ℝ) (sr : ℝ), s ≠ [] →
      (amplitudes s).length = 0 ∨ (amplitudes s).sum = 0 →
      compute_frequency_features s sr = freqNaNRow) ∧
    (∀ (s : List ℝ) (sr : ℝ), s ≠ [] → (∀ x ∈ s, x = 0) →
      compute_frequency_features s sr = freqNaNRow) ∧
    (∀ (s : List ℝ) (sr : ℝ), s.length = 1 →
      compute_frequency_features s sr = freqNaNRow) := by
  refine ⟨fun s sr _ h => cff_degenerate s sr h, ?_, ?_⟩
  · intro s sr _ hz
    exact cff_degenerate s sr (Or.inr (amplitudes_sum_eq_zero_of_zero s hz))
  · intro s sr h
    exact cff_degenerate s sr (Or.inl (by rw [amplitudes_eq_nil_of_length_one s h]; rfl))

/-- C2 witness: the all-zero signal of length 4 at rate 25000 yields the
all-NaN frequency row. -/
theorem C2_witness : compute_frequency_features [0, 0, 0, 0] 25000 = freqNaNRow :=
  C2_freq_degenerate.2.1 [0, 0, 0, 0] 25000 (by simp) (by
    intro x hx
    simp only [List.mem_cons, List.not_mem_nil, or_false] at hx
    rcases hx with rfl | rfl | rfl | rfl <;> rfl)

/-- The 14 time-domain feature names, in dictionary insertion order. -/
def timeNames : List String :=
  ["mean", "std", "rms", "max", "min", "peak_to_peak", "mean_abs", "crest_factor",
   "shape_factor", "impulse_factor", "skewness", "kurtosis", "energy", "zero_crossing_rate"]

/-- The 6 frequency-domain feature names, in dictionary insertion order. -/
def freqNames : List String :=
  ["dominant_freq", "dominant_amp", "spectral_energy", "spectral_centroid",
   "spectral_bandwidth", "spectral_flatness"]

/-- The 20 keys contributed by one signal with a given suffix. -/
def keysOfChannel (suf : String) : List String :=
  timeNames.map (fun f => "time_" ++ f ++ suf) ++ freqNames.map (fun f => "freq_" ++ f ++ suf)

/-- The 20 keys contributed by one named channel in the full strategy. -/
def chanKeys (nm : String) : List String := keysOfChannel ("_" ++ nm)

/-- All 140 keys of the full 7-channel strategy. -/
def masterKeys : List String := column_names.flatMap chanKeys

/-- All 60 keys of the 3-axis strategy. -/
def keys3 : List String :=
  keysOfChannel "_axial" ++ keysOfChannel "_radial" ++ keysOfChannel "_tangential"

theorem time_features_keys (s : List ℝ) :
    (compute_basic_time_features s).map Prod.fst = timeNames := rfl

theorem freq_features_keys (s : List ℝ) (sr : ℝ) :
    (compute_frequency_features s sr).map Prod.fst = freqNames := by
  simp only [compute_frequency_features]
  split
  · rfl
  · rfl

theorem tagFeatures_keys (pre suf : String) (feats : List (String × Option ℝ)) :
    (tagFeatures pre suf feats).map Prod.fst =
      (feats.map Prod.fst).map (fun f => pre ++ f ++ suf) := by
  simp [tagFeatures, List.map_map]

theorem channelFeatures_keys (signal : List ℝ) (sr : ℝ) (suf : String) :
    (channelFeatures signal sr suf).map Prod.fst = keysOfChannel suf := by
  simp only [channelFeatures, List.map_append, tagFeatures_keys, time_features_keys,
    freq_features_keys, keysOfChannel]

theorem keysOfChannel_length (suf : String) : (keysOfChannel suf).length = 20 := by
  simp [keysOfChannel, timeNames, freqNames]

set_option maxRecDepth 100000 in
theorem masterKeys_nodup : masterKeys.Nodup := by decide

set_option maxRecDepth 100000 in
theorem keys3_nodup : keys3.Nodup := by decide

set_option maxRecDepth 100000 in
theorem keysSingle_nodup : (keysOfChannel "").Nodup := by decide

theorem take_flatMap_nodup (k : ℕ) : ((column_names.take k).flatMap chanKeys).Nodup := by
  apply List.Nodup.sublist ?_ masterKeys_nodup
  apply List.IsPrefix.sublist
  exact ⟨(column_names.drop k).flatMap chanKeys, by
    rw [← List.flatMap_append, List.take_append_drop]; rfl⟩

theorem zip_flatMap_keys (names : List String) (used : List (List ℝ)) (sr : ℝ)
    (h : names.length ≤ used.length) :
    ((names.zip used).flatMap (fun nc => channelFeatures nc.2 sr ("_" ++ nc.1))).map Prod.fst =
      names.flatMap chanKeys := by
  rw [List.map_flatMap]
  simp only [channelFeatures_keys]
  have hmap : (names.zip used).flatMap (fun nc => keysOfChannel ("_" ++ nc.1)) =
      ((names.zip used).map Prod.fst).flatMap chanKeys := by
    rw [List.flatMap_map]
    rfl
  rw [hmap, List.map_fst_zip names used h]

theorem full_ncols (cols : List (List ℝ)) (sr : ℝ) :
    (extract_features_from_multi_channel_data cols sr).ncols = 20 * min 7 cols.length := by
  have h : (column_names.take cols.length).length ≤
      (cols.take (column_names.take cols.length).length).length := by
    simp only [List.length_take]
    omega
  simp only [extract_features_from_multi_channel_data, DataFrame.ncols]
  rw [zip_flatMap_keys _ _ sr h]
  rw [List.dedup_eq_self.mpr (take_flatMap_nodup cols.length)]
  rw [List.length_flatMap]
  rw [List.map_congr_left (fun a _ => by
    simp only [Function.comp]
    exact keysOfChannel_length ("_" ++ a))]
  rw [List.map_const', List.sum_replicate]
  simp only [List.length_take, column_names, List.length_cons, List.length_nil, smul_eq_mul]
  omega

theorem threeaxis_ncols (g : Rng) (d : NDArray) (sr : ℝ) :
    (extract_3axis_features g d sr).ncols = 60 := by
  simp only [extract_3axis_features, DataFrame.ncols]
  rw [List.map_append, List.map_append, channelFeatures_keys, channelFeatures_keys,
    channelFeatures_keys]
  change keys3.dedup.length = 60
  rw [List.dedup_eq_self.mpr keys3_nodup]
  rfl

theorem single_ncols (d : NDArray) (sr : ℝ) (axis_type : String) :
    (extract_single_axis_features d sr axis_type).ncols = 20 := by
  simp only [extract_single_axis_features, DataFrame.ncols]
  rw [channelFeatures_keys]
  rw [List.dedup_eq_self.mpr keysSingle_nodup]
  rfl

/-- A fixed oracle used to instantiate theorems at concrete inputs. -/
def zeroRng : Rng := fun _ _ n => List.replicate n 0

/-- C3: on a matrix of channel columns of common length at least 2, the
feature frame has exactly one row, and its column count is
`20 * min 7 channels` for the full strategy, 60 for the 3-axis strategy and
20 for every single-axis strategy. -/
theorem C3_feature_counts (cols : List (List ℝ)) (n : ℕ) (sr : ℝ) (g : Rng)
    (hne : cols ≠ []) (hcl : ∀ col ∈ cols, col.length = n) (hn : 2 ≤ n) :
    ((extract_features_from_multi_channel_data cols sr).nrows = 1 ∧
     (extract_features_from_multi_channel_data cols sr).ncols = 20 * min 7 cols.length) ∧
    ((extract_3axis_features g (.d2 cols) sr).nrows = 1 ∧
     (extract_3axis_features g (.d2 cols) sr).ncols = 60) ∧
    (∀ axis_type, (extract_single_axis_features (.d2 cols) sr axis_type).nrows = 1 ∧
     (extract_single_axis_features (.d2 cols) sr axis_type).ncols = 20) :=
  ⟨⟨rfl, full_ncols cols sr⟩, ⟨rfl, threeaxis_ncols g (.d2 cols) sr⟩,
   fun a => ⟨rfl, single_ncols (.d2 cols) sr a⟩⟩

/-- C3 witness: a 7-channel matrix with 2 samples per channel gives a
one-row frame with 140, 60 and 20 columns for the three strategies. -/
theorem C3_witness :
    ((extract_features_from_multi_channel_data (List.replicate 7 [(0 : ℝ), 0]) 25000).nrows = 1 ∧
     (extract_features_from_multi_channel_data (List.replicate 7 [(0 : ℝ), 0]) 25000).ncols =
       20 * min 7 (List.replicate 7 [(0 : ℝ), 0]).length) ∧
    ((extract_3axis_features zeroRng (.d2 (List.replicate 7 [(0 : ℝ), 0])) 25000).nrows = 1 ∧
     (extract_3axis_features zeroRng (.d2 (List.replicate 7 [(0 : ℝ), 0])) 25000).ncols = 60) ∧
    (∀ axis_type,
     (extract_single_axis_features (.d2 (List.replicate 7 [(0 : ℝ), 0])) 25000 axis_type).nrows = 1 ∧
     (extract_single_axis_features (.d2 (List.replicate 7 [(0 : ℝ), 0])) 25000 axis_type).ncols = 20) :=
  C3_feature_counts (List.replicate 7 [(0 : ℝ), 0]) 2 25000 zeroRng (by simp)
    (fun col hc => by rw [List.eq_of_mem_replicate hc]; rfl) (by norm_num)

/-- C4: `extract_features_by_model_type` dispatches by case-insensitive
substring match with precedence 3axis, axial, radial, tangential, full; a
name containing "3axis" routes to the 3-axis strategy no matter what else it
contains. -/
theorem C4_dispatch (g : Rng) (d : NDArray) (name : String) (sr : ℝ) :
    (substrIn "3axis" (lowerStr name) = true →
      extract_features_by_model_type g d name sr = extract_3axis_features g d sr) ∧
    (substrIn "3axis" (lowerStr name) = false →
     substrIn "axial" (lowerStr name) = true →
      extract_features_by_model_type g d name sr = extract_single_axis_features d sr "axial") ∧
    (substrIn "3axis" (lowerStr name) = false →
     substrIn "axial" (lowerStr name) = false →
     substrIn "radial" (lowerStr name) = true →
      extract_features_by_model_type g d name sr = extract_single_axis_features d sr "radial") ∧
    (substrIn "3axis" (lowerStr name) = false →
     substrIn "axial" (lowerStr name) = false →
     substrIn "radial" (lowerStr name) = false →
     substrIn "tangential" (lowerStr name) = true →
      extract_features_by_model_type g d name sr =
        extract_single_axis_features d sr "tangential") ∧
    (∀ cols : List (List ℝ),
     substrIn "3axis" (lowerStr name) = false →
     substrIn "axial" (lowerStr name) = false →
     substrIn "radial" (lowerStr name) = false →
     substrIn "tangential" (lowerStr name) = false →
      extract_features_by_model_type g (.d2 cols) name sr =
        extract_features_from_multi_channel_data cols sr) := by
  refine ⟨?_, ?_, ?_, ?_, ?_⟩
  · intro h1
    simp [extract_features_by_model_type, h1]
  · intro h1 h2
    simp [extract_features_by_model_type, h1, h2]
  · intro h1 h2 h3
    simp [extract_features_by_model_type, h1, h2, h3]
  · intro h1 h2 h3 h4
    simp [extract_features_by_model_type, h1, h2, h3, h4]
  · intro cols h1 h2 h3 h4
    simp [extract_features_by_model_type, h1, h2, h3, h4]

/-- C4 witness: a name containing both "3axis" and "Axial" routes to the
3-axis strategy. -/
theorem C4_witness :
    extract_features_by_model_type zeroRng (.d1 [1]) "RF_3axis_Axial_25000" 25000 =
      extract_3axis_features zeroRng (.d1 [1]) 25000 :=
  (C4_dispatch zeroRng (.d1 [1]) "RF_3axis_Axial_25000" 25000).1 (by decide)

/-- C5 (amended): the sampling rate inferred by `predict` equals the first
purely numeric underscore-separated token only when the identifier contains
an underscore; an identifier without an underscore always yields the default
25000, even when the whole identifier is numeric. Identifier
"myRF_3axis_50000" yields 50000. -/
theorem C5_sampling_rate (name : String) :
    (hasUnderscore name = true → infer_sampling_rate name = spec_first_numeric_rate name) ∧
    (hasUnderscore name = false → infer_sampling_rate name = 25000) ∧
    ((pySplitUnderscore name).find? pyIsDigit = none → infer_sampling_rate name = 25000) ∧
    infer_sampling_rate "myRF_3axis_50000" = 50000 := by
  refine ⟨?_, ?_, ?_, by decide⟩
  · intro h
    simp [infer_sampling_rate, spec_first_numeric_rate, h]
  · intro h
    simp [infer_sampling_rate, h]
  · intro h
    by_cases hu : hasUnderscore name <;> simp [infer_sampling_rate, hu, h]

/-- C5 counterexample: the identifier "12345" has "12345" as the first
purely numeric token of its underscore split, yet the code infers the
default 25000 because the identifier contains no underscore. -/
theorem C5_counterexample :
    infer_sampling_rate "12345" = 25000 ∧ spec_first_numeric_rate "12345" = 12345 ∧
    (25000 : ℕ) ≠ 12345 := by decide

/-- C5 witness: the amended statement evaluated on "myRF_3axis_50000". -/
theorem C5_witness :
    infer_sampling_rate "myRF_3axis_50000" = spec_first_numeric_rate "myRF_3axis_50000" :=
  (C5_sampling_rate "myRF_3axis_50000").1 (by decide)

/-- A concrete loaded classifier used to instantiate theorems. -/
def okClassifier : Classifier :=
  { predictFn := fun _ => .ok 0, probaFn := none, classes := none }

/-- A concrete classifier whose prediction raises, used to instantiate
theorems about exception handling. -/
def failClassifier : Classifier :=
  { predictFn := fun _ => .error "boom", probaFn := none, classes := none }

/-- C6: `predict` always returns a result value; with no models loaded it is
exactly the "No models available" error, with an empty feature frame exactly
the "No features extracted" error, and an exception raised by the
classifier's predict or predict_proba surfaces as an error result carrying
its message. -/
theorem C6_error_handling :
    (∀ (g : Rng) (data : InputData) (name : String),
      predict [] g data name = .error "No models available") ∧
    (∀ (models : List (String × Classifier)) (g : Rng) (data : InputData)
      (req nm : String) (c : Classifier),
      resolveModel models req = some (nm, c) →
      (preprocess_data g data nm ((infer_sampling_rate nm : ℕ) : ℝ)).isEmpty = true →
      predict models g data req = .error "No features extracted") ∧
    (∀ (models : List (String × Classifier)) (g : Rng) (data : InputData)
      (req nm : String) (c : Classifier) (e : String),
      resolveModel models req = some (nm, c) →
      (preprocess_data g data nm ((infer_sampling_rate nm : ℕ) : ℝ)).isEmpty = false →
      c.predictFn (preprocess_data g data nm ((infer_sampling_rate nm : ℕ) : ℝ)) = .error e →
      predict models g data req = .error e) ∧
    (∀ (models : List (String × Classifier)) (g : Rng) (data : InputData)
      (req nm : String) (c : Classifier) (f : DataFrame → Except String (List ℝ))
      (e : String) (k : ℤ),
      resolveModel models req = some (nm, c) →
      (preprocess_data g data nm ((infer_sampling_rate nm : ℕ) : ℝ)).isEmpty = false →
      c.predictFn (preprocess_data g data nm ((infer_sampling_rate nm : ℕ) : ℝ)) = .ok k →
      c.probaFn = some f →
      f (preprocess_data g data nm ((infer_sampling_rate nm : ℕ) : ℝ)) = .error e →
      predict models g data req = .error e) ∧
    (∀ (models : List (String × Classifier)) (g : Rng) (data : InputData) (name : String),
      (∃ msg, predict models g data name = .error msg) ∨
      (∃ r, predict models g data name = .ok r)) := by
  refine ⟨fun g data name => rfl, ?_, ?_, ?_, ?_⟩
  · intro models g data req nm c hres hemp
    simp only [predict, hres, predict_with_model]
    simp [hemp]
  · intro models g data req nm c e hres hemp hpred
    simp only [predict, hres, predict_with_model]
    simp [hemp, hpred]
  · intro models g data req nm c f e k hres hemp hpred hproba hf
    simp only [predict, hres, predict_with_model]
    simp [hemp, hpred, hproba, hf]
  · intro models g data name
    cases hp : predict models g data name with
    | error msg => exact Or.inl ⟨msg, rfl⟩
    | ok r => exact Or.inr ⟨r, rfl⟩

/-- C6 witness: a record without samples resolves to an empty feature frame
and yields the "No features extracted" error result. -/
theorem C6_witness :
    predict [("m", okClassifier)] zeroRng InputData.noSamples "m" =
      .error "No features extracted" :=
  C6_error_handling.2.1 [("m", okClassifier)] zeroRng InputData.noSamples "m" "m"
    okClassifier (by rfl) (by rfl)

/-- C7: when the requested name is not among the loaded models and at least
one model is loaded, `predict` runs with the first loaded model substituted
everywhere: the result is exactly the run on that model, and a successful
record reports the substituted name in `model_used`, its inferred sampling
rate, and the feature count of the frame preprocessed under that name. -/
theorem C7_fallback (nm : String) (c : Classifier) (rest : List (String × Classifier))
    (g : Rng) (data : InputData) (req : String)
    (h : ((nm, c) :: rest).lookup req = none) :
    predict ((nm, c) :: rest) g data req = predict_with_model nm c g data ∧
    (∀ r, predict_with_model nm c g data = .ok r →
      r.model_used = nm ∧ r.sampling_rate = infer_sampling_rate nm ∧
      r.features_count =
        (preprocess_data g data nm ((infer_sampling_rate nm : ℕ) : ℝ)).ncols) := by
  constructor
  · simp [predict, resolveModel, h]
  · intro r hr
    simp only [predict_with_model] at hr
    split at hr
    · exact absurd hr (by simp)
    · split at hr
      · exact absurd hr (by simp)
      · split at hr
        · cases hr
          exact ⟨rfl, rfl, rfl⟩
        · split at hr
          · exact absurd hr (by simp)
          · cases hr
            exact ⟨rfl, rfl, rfl⟩

/-- C7 witness: requesting an unknown model name with one loaded model
substitutes that model. -/
theorem C7_witness :
    predict [("alpha_1000", okClassifier)] zeroRng InputData.noSamples "beta" =
      predict_with_model "alpha_1000" okClassifier zeroRng InputData.noSamples ∧
    (∀ r, predict_with_model "alpha_1000" okClassifier zeroRng InputData.noSamples = .ok r →
      r.model_used = "alpha_1000" ∧
      r.sampling_rate = infer_sampling_rate "alpha_1000" ∧
      r.features_count =
        (preprocess_data zeroRng InputData.noSamples "alpha_1000"
          ((infer_sampling_rate "alpha_1000" : ℕ) : ℝ)).ncols) :=
  C7_fallback "alpha_1000" okClassifier [] zeroRng InputData.noSamples "beta" (by rfl)

theorem preprocess_twoD_rng (g₁ g₂ : Rng) (cols : List (List ℝ)) (nm : String) (sr : ℝ) :
    preprocess_data g₁ (.twoD cols) nm sr = preprocess_data g₂ (.twoD cols) nm sr := by
  simp only [preprocess_data]
  unfold extract_features_by_model_type
  split_ifs <;> rfl

/-- C9: on a 2-D (multi-channel) input the whole prediction path never
consults the random source: the result of `predict` is the same for any two
oracles, hence two invocations with identical inputs return identical
results (classifiers are modelled as pure functions, hence deterministic). -/
theorem C9_deterministic (models : List (String × Classifier)) (cols : List (List ℝ))
    (name : String) (g₁ g₂ : Rng) :
    predict models g₁ (.twoD cols) name = predict models g₂ (.twoD cols) name := by
  cases hres : resolveModel models name with
  | none => simp [predict, hres]
  | some nm =>
    simp only [predict, hres]
    simp only [predict_with_model]
    rw [preprocess_twoD_rng g₁ g₂]

/-- C10: an input record without the "samples" key preprocesses to the empty
frame, so `predict` (with at least one model loaded) returns exactly the
"No features extracted" error rather than raising. -/
theorem C10_no_samples :
    (∀ (g : Rng) (name : String) (sr : ℝ),
      preprocess_data g .noSamples name sr = DataFrame.empty0) ∧
    (∀ (models : List (String × Classifier)) (g : Rng) (name : String), models ≠ [] →
      predict models g .noSamples name = .error "No features extracted") := by
  refine ⟨fun g name sr => rfl, ?_⟩
  intro models g name hne
  obtain ⟨nm, hres⟩ : ∃ nm, resolveModel models name = some nm := by
    cases models with
    | nil => exact absurd rfl hne
    | cons a t =>
      unfold resolveModel
      cases h : List.lookup name (a :: t) with
      | none => exact ⟨a, by simp [h]⟩
      | some c => exact ⟨(name, c), by simp [h]⟩
  simp only [predict, hres]
  simp [predict_with_model, preprocess_data, DataFrame.isEmpty, DataFrame.nrows]

/-- C10 witness: one loaded model and a record without samples. -/
theorem C10_witness :
    predict [("m", okClassifier)] zeroRng .noSamples "m" =
      .error "No features extracted" :=
  C10_no_samples.2 [("m", okClassifier)] zeroRng "m" (by simp)

/-- C8: for a nonempty 1-D sample list, `preprocess_data` assembles a
7-column matrix whose column 0 is the samples scaled by 0.1 and whose column
`i` (for `i = 1..6`) adds the oracle draw requested from
`normal(0, (0.1 + 0.05 * i) * std(samples), len(samples))`; a 2-D input
passes through to feature extraction unchanged. -/
theorem C8_channel_assembly (g : Rng) (s : List ℝ) (hs : s ≠ []) :
    (assemble_channels g s).length = 7 ∧
    (assemble_channels g s).getD 0 [] = s.map (fun x => x * 0.1) ∧
    (∀ i, 1 ≤ i → i ≤ 6 →
      (assemble_channels g s).getD i [] =
        List.zipWith (fun a b => a + b) s
          (g 0 ((0.1 + (i : ℝ) * 0.05) * std s) s.length)) ∧
    (∀ (name : String) (sr : ℝ),
      preprocess_data g (.oneD s) name sr =
        extract_features_by_model_type g (.d2 (assemble_channels g s)) name sr) ∧
    (∀ (cols : List (List ℝ)) (name : String) (sr : ℝ),
      preprocess_data g (.twoD cols) name sr =
        extract_features_by_model_type g (.d2 cols) name sr) := by
  refine ⟨?_, ?_, ?_, fun name sr => rfl, fun cols name sr => rfl⟩
  · rfl
  · rw [assemble_channels, show List.range 7 = [0, 1, 2, 3, 4, 5, 6] from rfl]
    simp
  · intro i h1 h6
    interval_cases i <;>
      (rw [assemble_channels, show List.range 7 = [0, 1, 2, 3, 4, 5, 6] from rfl]
       simp)

/-- C8 witness: the third noise column of the assembled matrix for the
samples [1, 2]. -/
theorem C8_witness :
    (assemble_channels zeroRng [(1 : ℝ), 2]).getD 3 [] =
      List.zipWith (fun a b => a + b) [(1 : ℝ), 2]
        (zeroRng 0 ((0.1 + ((3 : ℕ) : ℝ) * 0.05) * std [(1 : ℝ), 2]) [(1 : ℝ), 2].length) :=
  (C8_channel_assembly zeroRng [(1 : ℝ), 2] (by simp)).2.2.1 3 (by norm_num) (by norm_num)

end ModelPredictor
